import Mathlib

/-!
Shallow embedding of the job–resume compatibility scorer of
`src/linkedin_job_applier/job_matcher.py` (class `JobMatcher`).

The embedding covers the parts of the scorer that the verified properties
are about: the requirement extractor (`_extract_job_requirements`,
`_extract_skills_from_text`), the category scorer
(`_calculate_match_scores`, `_calculate_experience_match`,
`_calculate_keyword_similarity`, `_clean_text`) and the recommendation
step function (`_get_recommendation`).  Python floats are modelled as ℚ
(all inputs here are small integers and decimal literals, for which the
float comparisons of the source agree with exact rational arithmetic),
Python sets of strings as `Finset String`, and the external
TF-IDF/cosine library (sklearn) as an oracle argument
`String → String → Except String ℚ` that either returns a similarity or
fails, mirroring the `try/except` in `_calculate_keyword_similarity`.
The unscored `education`/`certifications` fields and the purely textual
narration/persistence layers are not needed by any verified property and
are not modelled.
-/

namespace JobMatcher

/-- Experience levels: the keys of the experience_levels table of `requirement_categories`. -/
inductive ExpLevel
  | entry
  | mid
  | senior
  | executive
deriving DecidableEq

/-- Vocabulary entry programming of the technical_skills table. -/
def programmingSkills : List String := ["python", "java", "javascript", "c++", "c#", "go", "rust", "ruby"]

/-- Vocabulary entry web of the technical_skills table. -/
def webSkills : List String := ["html", "css", "react", "angular", "vue", "node.js", "django", "flask"]

/-- Vocabulary entry database of the technical_skills table. -/
def databaseSkills : List String := ["sql", "mysql", "postgresql", "mongodb", "redis", "elasticsearch"]

/-- Vocabulary entry cloud of the technical_skills table. -/
def cloudSkills : List String := ["aws", "azure", "gcp", "docker", "kubernetes", "terraform"]

/-- Vocabulary entry data of the technical_skills table. -/
def dataSkills : List String := ["pandas", "numpy", "scikit-learn", "tensorflow", "pytorch", "spark"]

/-- Vocabulary entry tools of the technical_skills table. -/
def toolsSkills : List String := ["git", "jenkins", "jira", "linux", "bash", "vim"]

/-- The technical vocabulary, flattened in the iteration order of the source
dict (the inner loop over skills inside the outer loop over categories). -/
def technicalVocab : List String :=
  programmingSkills ++ webSkills ++ databaseSkills ++ cloudSkills ++ dataSkills ++ toolsSkills

/-- Soft-skills table of `requirement_categories`, flattened in dict iteration order
(leadership, communication, collaboration, problem_solving). -/
def softVocab : List String :=
  ["leadership", "management", "mentoring", "coaching", "team lead"] ++
  ["communication", "presentation", "writing", "documentation"] ++
  ["teamwork", "collaboration", "cross-functional", "agile", "scrum"] ++
  ["problem-solving", "analytical", "critical thinking", "debugging"]

/-- Experience-levels table of `requirement_categories` in dict iteration order. -/
def levelIndicators : List (ExpLevel × List String) :=
  [(ExpLevel.entry, ["entry level", "junior", "0-2 years", "new grad", "recent graduate"]),
   (ExpLevel.mid, ["mid level", "intermediate", "3-5 years", "experienced"]),
   (ExpLevel.senior, ["senior", "lead", "5+ years", "7+ years", "expert", "principal"]),
   (ExpLevel.executive, ["director", "vp", "cto", "head of", "chief"])]

/-- Python `str.lower()` (ASCII case folding suffices for the fixed vocabularies). -/
def toLowerStr (s : String) : String := String.mk (s.data.map Char.toLower)

/-- Substring containment on character lists: Python `needle in hay`. -/
def containsSub : List Char → List Char → Bool
  | [], needle => needle.isEmpty
  | hay@(_ :: t), needle => List.isPrefixOf needle hay || containsSub t needle

/-- Python `needle in hay` on strings. -/
def strContains (hay needle : String) : Bool := containsSub hay.data needle.data

/-- Python `\s` character class (ASCII part). -/
def isSpaceChar (c : Char) : Bool :=
  c = ' ' || c = '\t' || c = '\n' || c = '\r' || c = '\x0b' || c = '\x0c'

/-- Numeric value of a digit string, as `int()` of the captured group. -/
def digitsVal (ds : List Char) : Nat :=
  ds.foldl (fun a c => a * 10 + (c.toNat - 48)) 0

/-- Greedy `(\d+)`: longest digit run at the head, with its value and the rest. -/
def parseDigits (s : List Char) : Option (Nat × List Char) :=
  let ds := s.takeWhile (fun c => c.isDigit)
  if ds.isEmpty then none else some (digitsVal ds, s.drop ds.length)

/-- `\s*`. -/
def skipWS (s : List Char) : List Char := s.dropWhile (fun c => isSpaceChar c)

/-- A literal regex fragment. -/
def parseLit (lit : List Char) (s : List Char) : Option (List Char) :=
  if List.isPrefixOf lit s then some (s.drop lit.length) else none

/-- An optional single character (`\+?`, `s?`); in the four experience regexes
consuming the character when present is forced, so this is deterministic. -/
def parseOptChar (c : Char) : List Char → List Char
  | [] => []
  | x :: r => if x = c then r else x :: r

def yearLit : List Char := "year".data

def ofLit : List Char := "of".data

def experienceLit : List Char := "experience".data

def minimumLit : List Char := "minimum".data

def atLeastLit : List Char := "at least".data

/-- `(\d+)\+?\s*years?\s*of\s*experience` anchored at the head of `s`. -/
def pat1At (s : List Char) : Option Nat := do
  let (n, r0) ← parseDigits s
  let r1 := skipWS (parseOptChar '+' r0)
  let r2 ← parseLit yearLit r1
  let r3 := skipWS (parseOptChar 's' r2)
  let r4 ← parseLit ofLit r3
  let _ ← parseLit experienceLit (skipWS r4)
  pure n

/-- `(\d+)\+?\s*years?\s*experience` anchored at the head of `s`. -/
def pat2At (s : List Char) : Option Nat := do
  let (n, r0) ← parseDigits s
  let r1 := skipWS (parseOptChar '+' r0)
  let r2 ← parseLit yearLit r1
  let r3 := skipWS (parseOptChar 's' r2)
  let _ ← parseLit experienceLit r3
  pure n

/-- `minimum\s*(\d+)\s*years?` anchored at the head of `s`. -/
def pat3At (s : List Char) : Option Nat := do
  let r0 ← parseLit minimumLit s
  let (n, r1) ← parseDigits (skipWS r0)
  let _ ← parseLit yearLit (skipWS r1)
  pure n

/-- `at least\s*(\d+)\s*years?` anchored at the head of `s`. -/
def pat4At (s : List Char) : Option Nat := do
  let r0 ← parseLit atLeastLit s
  let (n, r1) ← parseDigits (skipWS r0)
  let _ ← parseLit yearLit (skipWS r1)
  pure n

/-- `re.search` for an anchored matcher: try every position left to right. -/
def searchAt (p : List Char → Option Nat) : List Char → Option Nat
  | [] => p []
  | s@(_ :: rest) => (p s).orElse (fun _ => searchAt p rest)

/-- The `exp_patterns` loop of `_extract_job_requirements`: the first of the
four patterns that matches anywhere in the text determines the value. -/
def extractYearsExperience (jobText : String) : Option Nat :=
  ((searchAt pat1At jobText.data).orElse fun _ =>
   (searchAt pat2At jobText.data).orElse fun _ =>
   (searchAt pat3At jobText.data).orElse fun _ =>
    searchAt pat4At jobText.data)

/-- First experience level (dict order) one of whose indicator phrases occurs
in the job text; inner and outer loops both break on the first hit. -/
def extractExperienceLevel (jobText : String) : Option ExpLevel :=
  (levelIndicators.find? (fun p => p.2.any (fun ind => strContains jobText (toLowerStr ind)))).map
    (fun p => p.1)

def mustHeads : List String := ["required", "must have", "essential"]

def doubleNL : String := "\n\n"

def mustStops : List String := ["preferred", "nice to have", "plus", "bonus", doubleNL]

def niceHeads : List String := ["preferred", "nice to have", "plus", "bonus"]

def niceStops : List String := [doubleNL]

/-- Does the lookahead `(?=stop1|stop2|...)` (plus `$` when `allowEnd`) match at
the position whose remaining text is `s`?  Without `re.MULTILINE`, `$` matches
at the end of the text or just before one trailing newline. -/
def stopsHere (stops : List String) (allowEnd : Bool) (s : List Char) : Bool :=
  stops.any (fun st => List.isPrefixOf st.data s) ||
    (allowEnd && (s.isEmpty || s = ['\n']))

/-- Length of the minimal lazy extension of `.*?` (with `re.DOTALL`) before the
lookahead matches. -/
def minStopLen (stops : List String) (allowEnd : Bool) : List Char → Option Nat
  | [] => if stopsHere stops allowEnd [] then some 0 else none
  | s@(_ :: rest) =>
    if stopsHere stops allowEnd s then some 0
    else (minStopLen stops allowEnd rest).map (fun n => n + 1)

/-- First head alternative (in alternation order) that matches at this
position, with its length.  For both section regexes of the source the head
alternatives are pairwise non-overlapping (distinct first two characters), so
at most one can match at a given position. -/
def headMatch (heads : List String) (s : List Char) : Option Nat :=
  heads.findSome? (fun h => if List.isPrefixOf h.data s then some h.data.length else none)

/-- `re.search` of `(head1|head2|...).*?(?=stop1|stop2|...)` with
`re.DOTALL`: leftmost position where a head matches and some stop occurs at or
after the end of the head; the match is the span up to the lazy-minimal stop. -/
def sectionFrom (heads stops : List String) (allowEnd : Bool) : List Char → Option (List Char)
  | [] => none
  | s@(_ :: rest) =>
    (match headMatch heads s with
     | some hl =>
       match minStopLen stops allowEnd (s.drop hl) with
       | some e => some (s.take (hl + e))
       | none => none
     | none => none).orElse (fun _ => sectionFrom heads stops allowEnd rest)

/-- `_extract_skills_from_text`: technical then soft vocabulary hits in the
section, deduplicated (the source builds a list from a set; only the set
content is ever used downstream). -/
def extractSkillsFromText (text : String) : List String :=
  ((technicalVocab.filter (fun sk => strContains (toLowerStr text) (toLowerStr sk))) ++
   (softVocab.filter (fun sk => strContains (toLowerStr text) (toLowerStr sk)))).dedup

/-- The requirements dict built by `_extract_job_requirements` (without the
unscored `education`/`certifications` entries, which no verified property
reads). -/
structure JobRequirements where
  technical_skills : List String
  soft_skills : List String
  experience_level : Option ExpLevel
  must_have : List String
  nice_to_have : List String
  years_experience : Option Nat
deriving DecidableEq

/-- `_extract_job_requirements`. -/
def extractJobRequirements (jobDescription : String) : JobRequirements :=
  let jobText := toLowerStr jobDescription
  { technical_skills := technicalVocab.filter (fun sk => strContains jobText (toLowerStr sk))
    soft_skills := softVocab.filter (fun sk => strContains jobText (toLowerStr sk))
    experience_level := extractExperienceLevel jobText
    must_have :=
      match sectionFrom mustHeads mustStops false jobText.data with
      | some sec => extractSkillsFromText (String.mk sec)
      | none => []
    nice_to_have :=
      match sectionFrom niceHeads niceStops true jobText.data with
      | some sec => extractSkillsFromText (String.mk sec)
      | none => []
    years_experience := extractYearsExperience jobText }

/-- The `resume_data["analysis"]` record consumed by `_calculate_match_scores`
(shape described in the data model: `technical_skills`, `soft_skills`,
`experience_years`, `keywords`). -/
structure ResumeAnalysis where
  technical_skills : List String
  soft_skills : List String
  experience_years : Option Nat
  keywords : List String
deriving DecidableEq

/-- `level_requirements` inside `_calculate_experience_match`; `none` as upper
bound stands for the float infinity of the source. -/
def levelBand : ExpLevel → Nat × Option Nat
  | ExpLevel.entry => (0, some 2)
  | ExpLevel.mid => (3, some 5)
  | ExpLevel.senior => (6, some 10)
  | ExpLevel.executive => (10, none)

/-- The `if job_level:` tail of `_calculate_experience_match` (reached when the
`if job_years:` branch was not taken), followed by the final `return 0.5`.
Every `ExpLevel` is a key of `level_requirements`, so the
`if job_level in level_requirements` guard of the source is always true here. -/
def levelScore (r : Nat) : Option ExpLevel → ℚ
  | some lv =>
    let band := levelBand lv
    if band.1 ≤ r ∧ (∀ m, band.2 = some m → r ≤ m) then 1
    else if (band.1 : ℚ) * 0.8 ≤ (r : ℚ) then 0.8
    else 0.4
  | none => 0.5

/-- `_calculate_experience_match(resume_years, job_years, job_level)`.
Python truthiness: `if not resume_years` is true for `None` and for `0`, and
`if job_years:` is false for `None` and for `0`. -/
def calcExperienceMatch (resumeYears jobYears : Option Nat) (jobLevel : Option ExpLevel) : ℚ :=
  if resumeYears = none ∨ resumeYears = some 0 then 0.5
  else
    let r := resumeYears.getD 0
    if jobYears ≠ none ∧ jobYears ≠ some 0 then
      let j := jobYears.getD 0
      if (j : ℚ) ≤ (r : ℚ) then 1
      else if (j : ℚ) * 0.8 ≤ (r : ℚ) then 0.8
      else if (j : ℚ) * 0.6 ≤ (r : ℚ) then 0.6
      else 0.3
    else levelScore r jobLevel

/-- Python `\w` (ASCII part): letters, digits, underscore. -/
def isWordChar (c : Char) : Bool := c.isAlphanum || c = '_'

/-- Strip leading and trailing whitespace (`str.strip()`). -/
def stripStr (s : List Char) : List Char :=
  ((s.dropWhile isSpaceChar).reverse.dropWhile isSpaceChar).reverse

/-- Collapse runs of spaces to one space (the effect of the whitespace-run
substitution after every whitespace character has been mapped to a space). -/
def squeezeSpaces : List Char → List Char
  | [] => []
  | [c] => [c]
  | a :: b :: rest =>
    if a = ' ' && b = ' ' then squeezeSpaces (b :: rest)
    else a :: squeezeSpaces (b :: rest)

/-- `_clean_text`: lowercase, strip, collapse whitespace, then replace every
character outside `\w`, whitespace, `.`, `,`, `-` by a space. -/
def cleanText (text : String) : String :=
  let t1 := squeezeSpaces ((stripStr (text.data.map Char.toLower)).map
    (fun c => if isSpaceChar c then ' ' else c))
  String.mk (t1.map (fun c =>
    if isWordChar c || isSpaceChar c || c = '.' || c = ',' || c = '-' then c else ' '))

def spaceStr : String := " "

/-- `_calculate_keyword_similarity(resume_keywords, job_description)`.  The
TF-IDF vectorisation and cosine similarity are performed by an external
library (sklearn), modelled by the oracle `tfidfCosine`, whose failure is the
`except` branch of the source: any failure yields 0.0 and is never re-raised. -/
def calcKeywordSimilarity (tfidfCosine : String → String → Except String ℚ)
    (resumeKeywords : List String) (jobDescription : String) : ℚ :=
  if resumeKeywords.isEmpty then 0
  else
    match tfidfCosine (String.intercalate spaceStr resumeKeywords) (cleanText jobDescription) with
    | Except.ok s => s
    | Except.error _ => 0

/-- `set(skill.lower() for skill in skills)`. -/
def lowerSet (skills : List String) : Finset String := (skills.map toLowerStr).toFinset

/-- The technical-skills sub-score:
`len(resume ∩ job) / (len(job) if job else 1)`. -/
def techScore (resume : ResumeAnalysis) (reqs : JobRequirements) : ℚ :=
  let r := lowerSet resume.technical_skills
  let j := lowerSet reqs.technical_skills
  ((r ∩ j).card : ℚ) / (if j = ∅ then 1 else (j.card : ℚ))

/-- The soft-skills sub-score, same shape as `techScore`. -/
def softScore (resume : ResumeAnalysis) (reqs : JobRequirements) : ℚ :=
  let r := lowerSet resume.soft_skills
  let j := lowerSet reqs.soft_skills
  ((r ∩ j).card : ℚ) / (if j = ∅ then 1 else (j.card : ℚ))

/-- `must_have_score = len(must_have_met) / len(must_have_skills) if
must_have_skills else 1.0`, where `must_have_met` intersects the union of the
technical and soft skills of the resume with the must-have set of the job. -/
def mustHaveScore (resume : ResumeAnalysis) (reqs : JobRequirements) : ℚ :=
  let mh := lowerSet reqs.must_have
  let met := (lowerSet resume.technical_skills ∪ lowerSet resume.soft_skills) ∩ mh
  if mh = ∅ then 1 else (met.card : ℚ) / (mh.card : ℚ)

/-- `nice_to_have_score`, same shape but with empty-set value 0.0. -/
def niceToHaveScore (resume : ResumeAnalysis) (reqs : JobRequirements) : ℚ :=
  let nh := lowerSet reqs.nice_to_have
  let met := (lowerSet resume.technical_skills ∪ lowerSet resume.soft_skills) ∩ nh
  if nh = ∅ then 0 else (met.card : ℚ) / (nh.card : ℚ)

/-- Round-half-to-even to an integer (the tie-breaking of the Python builtin `round`). -/
def roundHalfEven (q : ℚ) : ℤ :=
  let f := ⌊q⌋
  let r := q - (f : ℚ)
  if r < 1/2 then f
  else if 1/2 < r then f + 1
  else if f % 2 = 0 then f else f + 1

/-- Python `round(q, 3)`. -/
def round3 (q : ℚ) : ℚ := ((roundHalfEven (q * 1000) : ℤ) : ℚ) / 1000

/-- The `categories` dict of the result of `_calculate_match_scores`. -/
structure CategoryScores where
  technical_skills : ℚ
  soft_skills : ℚ
  experience : ℚ
  keywords : ℚ
  must_have : ℚ
  nice_to_have : ℚ
deriving DecidableEq

/-- A `requirements_met` / `requirements_missing` dict.  The source builds
`list(...)` of each set; only the set content is determined by the inputs, so
the lists are modelled as the underlying `Finset`s (duplicate-free by
construction). -/
structure RequirementSets where
  technical_skills : Finset String
  soft_skills : Finset String
  must_have : Finset String
  nice_to_have : Finset String
deriving DecidableEq

/-- The full return value of `_calculate_match_scores`. -/
structure MatchScores where
  overall : ℚ
  categories : CategoryScores
  requirements_met : RequirementSets
  requirements_missing : RequirementSets
deriving DecidableEq

/-- `_calculate_match_scores(resume_analysis, job_requirements, job_description)`,
with the sklearn call abstracted as the `tfidfCosine` oracle. -/
def calcMatchScores (tfidfCosine : String → String → Except String ℚ)
    (resume : ResumeAnalysis) (reqs : JobRequirements) (jobDescription : String) : MatchScores :=
  let resumeTech := lowerSet resume.technical_skills
  let jobTech := lowerSet reqs.technical_skills
  let resumeSoft := lowerSet resume.soft_skills
  let jobSoft := lowerSet reqs.soft_skills
  let tech := techScore resume reqs
  let soft := softScore resume reqs
  let expScore := calcExperienceMatch resume.experience_years reqs.years_experience reqs.experience_level
  let kw := calcKeywordSimilarity tfidfCosine resume.keywords jobDescription
  let mh := lowerSet reqs.must_have
  let mhMet := (resumeTech ∪ resumeSoft) ∩ mh
  let must := mustHaveScore resume reqs
  let nh := lowerSet reqs.nice_to_have
  let nhMet := (resumeTech ∪ resumeSoft) ∩ nh
  let nice := niceToHaveScore resume reqs
  let overall := tech * 0.3 + soft * 0.15 + expScore * 0.25 + kw * 0.15 + must * 0.15
  { overall := round3 overall
    categories :=
      { technical_skills := round3 tech
        soft_skills := round3 soft
        experience := round3 expScore
        keywords := round3 kw
        must_have := round3 must
        nice_to_have := round3 nice }
    requirements_met :=
      { technical_skills := resumeTech ∩ jobTech
        soft_skills := resumeSoft ∩ jobSoft
        must_have := mhMet
        nice_to_have := nhMet }
    requirements_missing :=
      { technical_skills := jobTech \ resumeTech
        soft_skills := jobSoft \ resumeSoft
        must_have := mh \ mhMet
        nice_to_have := nh \ nhMet } }

/-- `_get_recommendation(overall_score)`. -/
def getRecommendation (overallScore : ℚ) : String :=
  if overallScore ≥ 0.8 then "Highly recommended - Excellent match"
  else if overallScore ≥ 0.7 then "Recommended - Good match with minor gaps"
  else if overallScore ≥ 0.6 then "Consider applying - Moderate match, resume optimization recommended"
  else if overallScore ≥ 0.5 then "Marginal match - Significant resume optimization needed"
  else "Not recommended - Poor match for current profile"

def errMsg : String := "tfidf unavailable"

/-- A TF-IDF oracle that always fails, as when the sklearn call raises. -/
def errOracle : String → String → Except String ℚ := fun _ _ => Except.error errMsg

def wJobText : String := "team"

def wResume : ResumeAnalysis :=
  { technical_skills := [], soft_skills := [], experience_years := none, keywords := [] }

def wReqs : JobRequirements :=
  { technical_skills := [], soft_skills := [], experience_level := none,
    must_have := [], nice_to_have := [], years_experience := none }

def wKeywords : List String := ["python"]

/-- Job text of the worked scenario of the specification. -/
def c6JobText : String := "Required: 3+ years of Python experience. Preferred: AWS, Docker."

/-- Resume of the worked scenario of the specification. -/
def c6Resume : ResumeAnalysis :=
  { technical_skills := ["python", "aws"], soft_skills := [],
    experience_years := some 5, keywords := [] }

/-- What `_extract_job_requirements` actually produces on `c6JobText` (checked
by evaluation in `c6_extraction`): no years pattern matches, because every one
of the four regexes requires the word years to be followed, up to whitespace
and an optional of, directly by the word experience, and the scenario text has
the word python in between. -/
def c6Reqs : JobRequirements :=
  { technical_skills := ["python", "aws", "docker"], soft_skills := [],
    experience_level := none, must_have := ["python"],
    nice_to_have := ["aws", "docker"], years_experience := none }

end JobMatcher

namespace JobMatcher

/-- Rounding helper: when the fractional part is below one half, round down. -/
lemma roundHalfEven_lt (q : ℚ) (n : ℤ) (h1 : (n : ℚ) ≤ q) (h2 : q < (n : ℚ) + 1/2) :
    roundHalfEven q = n := by
  have hf : ⌊q⌋ = n := Int.floor_eq_iff.mpr ⟨h1, by linarith⟩
  simp only [roundHalfEven, hf]
  rw [if_pos (by linarith)]

/-- Rounding helper: when the fractional part is above one half, round up. -/
lemma roundHalfEven_gt (q : ℚ) (n : ℤ) (h1 : (n : ℚ) + 1/2 < q) (h2 : q < (n : ℚ) + 1) :
    roundHalfEven q = n + 1 := by
  have hf : ⌊q⌋ = n := Int.floor_eq_iff.mpr ⟨by linarith, by linarith⟩
  simp only [roundHalfEven, hf]
  rw [if_neg (by linarith), if_pos (by linarith)]

lemma round3_zero : round3 0 = 0 := by
  have h : roundHalfEven (0 : ℚ) = 0 := roundHalfEven_lt _ 0 (by norm_num) (by norm_num)
  rw [round3, show ((0:ℚ) * 1000) = (0:ℚ) by norm_num, h]
  norm_num

lemma round3_one : round3 1 = 1 := by
  have h : roundHalfEven (1000 : ℚ) = 1000 := roundHalfEven_lt _ 1000 (by norm_num) (by norm_num)
  rw [round3, show ((1:ℚ) * 1000) = (1000:ℚ) by norm_num, h]
  norm_num

lemma round3_half : round3 (1/2 : ℚ) = 1/2 := by
  have h : roundHalfEven ((1/2 : ℚ) * 1000) = 500 :=
    roundHalfEven_lt _ 500 (by norm_num) (by norm_num)
  rw [round3, h]
  norm_num

lemma round3_two_thirds : round3 (2/3 : ℚ) = 667/1000 := by
  have h : roundHalfEven ((2/3 : ℚ) * 1000) = 667 := by
    have := roundHalfEven_gt ((2/3 : ℚ) * 1000) 666 (by norm_num) (by norm_num)
    simpa using this
  rw [round3, h]
  norm_num

/-- Rounding an integer-bounded value stays within the integer bounds. -/
lemma roundHalfEven_bounds (q : ℚ) (a b : ℤ) (h0 : (a : ℚ) ≤ q) (h1 : q ≤ (b : ℚ)) :
    a ≤ roundHalfEven q ∧ roundHalfEven q ≤ b := by
  have hfa : a ≤ ⌊q⌋ := Int.le_floor.mpr h0
  have hfq : (⌊q⌋ : ℚ) ≤ q := Int.floor_le q
  have hfb : ⌊q⌋ ≤ b := by exact_mod_cast le_trans hfq h1
  simp only [roundHalfEven]
  split_ifs with h2 h3 h4
  · exact ⟨hfa, hfb⟩
  · refine ⟨by omega, ?_⟩
    have hx : (⌊q⌋ : ℚ) < (b : ℚ) := by linarith
    have : ⌊q⌋ < b := by exact_mod_cast hx
    omega
  · exact ⟨hfa, hfb⟩
  · refine ⟨by omega, ?_⟩
    have he : q - (⌊q⌋ : ℚ) = 1/2 := le_antisymm (not_lt.mp h3) (not_lt.mp h2)
    have hx : (⌊q⌋ : ℚ) < (b : ℚ) := by linarith
    have : ⌊q⌋ < b := by exact_mod_cast hx
    omega

/-- Rounding to three decimals preserves the unit interval. -/
lemma round3_bounds (q : ℚ) (h0 : 0 ≤ q) (h1 : q ≤ 1) : 0 ≤ round3 q ∧ round3 q ≤ 1 := by
  obtain ⟨ha, hb⟩ := roundHalfEven_bounds (q * 1000) 0 1000
    (by push_cast; linarith) (by push_cast; linarith)
  unfold round3
  constructor
  · apply div_nonneg _ (by norm_num)
    exact_mod_cast ha
  · rw [div_le_one (by norm_num)]
    exact_mod_cast hb

/-- The guarded ratio of the technical and soft sub-scores lies in [0, 1]. -/
lemma guarded_ratio_bounds (x y : Finset String) :
    0 ≤ ((x ∩ y).card : ℚ) / (if y = ∅ then 1 else (y.card : ℚ))
    ∧ ((x ∩ y).card : ℚ) / (if y = ∅ then 1 else (y.card : ℚ)) ≤ 1 := by
  by_cases hy : y = ∅
  · subst hy
    simp
  · rw [if_neg hy]
    have hcard : 0 < y.card := Finset.card_pos.mpr (Finset.nonempty_iff_ne_empty.mpr hy)
    have hle : (x ∩ y).card ≤ y.card := Finset.card_le_card Finset.inter_subset_right
    constructor
    · apply div_nonneg (by positivity) (by positivity)
    · rw [div_le_one (by exact_mod_cast hcard)]
      exact_mod_cast hle

lemma techScore_bounds (resume : ResumeAnalysis) (reqs : JobRequirements) :
    0 ≤ techScore resume reqs ∧ techScore resume reqs ≤ 1 := by
  simpa [techScore] using
    guarded_ratio_bounds (lowerSet resume.technical_skills) (lowerSet reqs.technical_skills)

lemma softScore_bounds (resume : ResumeAnalysis) (reqs : JobRequirements) :
    0 ≤ softScore resume reqs ∧ softScore resume reqs ≤ 1 := by
  simpa [softScore] using
    guarded_ratio_bounds (lowerSet resume.soft_skills) (lowerSet reqs.soft_skills)

lemma mustHaveScore_bounds (resume : ResumeAnalysis) (reqs : JobRequirements) :
    0 ≤ mustHaveScore resume reqs ∧ mustHaveScore resume reqs ≤ 1 := by
  unfold mustHaveScore
  by_cases h : lowerSet reqs.must_have = ∅
  · simp [h]
  · rw [if_neg h]
    have hcard : 0 < (lowerSet reqs.must_have).card :=
      Finset.card_pos.mpr (Finset.nonempty_iff_ne_empty.mpr h)
    have hsub : (lowerSet resume.technical_skills ∪ lowerSet resume.soft_skills) ∩
        lowerSet reqs.must_have ⊆ lowerSet reqs.must_have := Finset.inter_subset_right
    have hle := Finset.card_le_card hsub
    constructor
    · apply div_nonneg (by positivity) (by positivity)
    · rw [div_le_one (by exact_mod_cast hcard)]
      exact_mod_cast hle

lemma niceToHaveScore_bounds (resume : ResumeAnalysis) (reqs : JobRequirements) :
    0 ≤ niceToHaveScore resume reqs ∧ niceToHaveScore resume reqs ≤ 1 := by
  unfold niceToHaveScore
  by_cases h : lowerSet reqs.nice_to_have = ∅
  · simp [h]
  · rw [if_neg h]
    have hcard : 0 < (lowerSet reqs.nice_to_have).card :=
      Finset.card_pos.mpr (Finset.nonempty_iff_ne_empty.mpr h)
    have hsub : (lowerSet resume.technical_skills ∪ lowerSet resume.soft_skills) ∩
        lowerSet reqs.nice_to_have ⊆ lowerSet reqs.nice_to_have := Finset.inter_subset_right
    have hle := Finset.card_le_card hsub
    constructor
    · apply div_nonneg (by positivity) (by positivity)
    · rw [div_le_one (by exact_mod_cast hcard)]
      exact_mod_cast hle

lemma levelScore_bounds (r : Nat) (jl : Option ExpLevel) :
    0 ≤ levelScore r jl ∧ levelScore r jl ≤ 1 := by
  cases jl with
  | none => norm_num [levelScore]
  | some lv =>
    cases lv <;> simp only [levelScore, levelBand] <;> split_ifs <;> norm_num

lemma experienceMatch_bounds (ry jy : Option Nat) (jl : Option ExpLevel) :
    0 ≤ calcExperienceMatch ry jy jl ∧ calcExperienceMatch ry jy jl ≤ 1 := by
  by_cases h1 : ry = none ∨ ry = some 0
  · rw [calcExperienceMatch, if_pos h1]
    norm_num
  · by_cases h2 : jy ≠ none ∧ jy ≠ some 0
    · rw [calcExperienceMatch, if_neg h1]
      simp only [h2, if_true, if_pos h2]
      split_ifs <;> norm_num
    · rw [calcExperienceMatch, if_neg h1, if_neg h2]
      exact levelScore_bounds _ _

/-- When every successful oracle answer lies in [0, 1], so does the keyword
sub-score. -/
lemma keywordSim_bounds (t : String → String → Except String ℚ)
    (ht : ∀ a b q, t a b = Except.ok q → 0 ≤ q ∧ q ≤ 1)
    (kws : List String) (jd : String) :
    0 ≤ calcKeywordSimilarity t kws jd ∧ calcKeywordSimilarity t kws jd ≤ 1 := by
  by_cases hk : kws.isEmpty
  · simp [calcKeywordSimilarity, hk]
  · cases h : t (String.intercalate spaceStr kws) (cleanText jd) with
    | error e => simp [calcKeywordSimilarity, hk, h]
    | ok s =>
      simp only [calcKeywordSimilarity, hk, if_false, h, Bool.false_eq_true]
      exact ht _ _ _ h

/-- Evaluation of the requirement extractor on the worked scenario of the
specification: the years patterns do not match, so no explicit years
requirement and no experience level are extracted. -/
lemma c6_extraction : extractJobRequirements c6JobText = c6Reqs := by decide

end JobMatcher

namespace JobMatcher

/-- C1: for every TF-IDF oracle, resume analysis, job requirements and job
text, the overall score equals the three-decimal rounding of
0.30 · technical + 0.15 · soft + 0.25 · experience + 0.15 · keywords
+ 0.15 · must-have, and the nice-to-have requirement list contributes nothing
to the overall score (replacing it changes nothing), even though its sub-score
is computed and reported in the category scores. -/
theorem overall_weighted_sum (tfidfCosine : String → String → Except String ℚ)
    (resume : ResumeAnalysis) (reqs : JobRequirements) (jobDescription : String)
    (nh2 : List String) :
    (calcMatchScores tfidfCosine resume reqs jobDescription).overall =
      round3 (0.3 * techScore resume reqs + 0.15 * softScore resume reqs
        + 0.25 * calcExperienceMatch resume.experience_years reqs.years_experience
            reqs.experience_level
        + 0.15 * calcKeywordSimilarity tfidfCosine resume.keywords jobDescription
        + 0.15 * mustHaveScore resume reqs)
    ∧ (calcMatchScores tfidfCosine resume
        { reqs with nice_to_have := nh2 } jobDescription).overall =
      (calcMatchScores tfidfCosine resume reqs jobDescription).overall := by
  constructor
  · simp only [calcMatchScores]
    congr 1
    ring
  · rfl

/-- C2: the three empty-requirement-set conventions.  With an empty extracted
technical (resp. soft) skill list the technical (resp. soft) category score is
0 (the guard divides 0 by 1), an empty must-have list gives category score
exactly 1.0 regardless of resume content, and an empty nice-to-have list gives
category score exactly 0.0. -/
theorem empty_requirement_conventions (tfidfCosine : String → String → Except String ℚ)
    (resume : ResumeAnalysis) (ts ss mh nh : List String) (el : Option ExpLevel)
    (ye : Option Nat) (jd : String) :
    (calcMatchScores tfidfCosine resume ⟨[], ss, el, mh, nh, ye⟩ jd).categories.technical_skills = 0
    ∧ (calcMatchScores tfidfCosine resume ⟨ts, [], el, mh, nh, ye⟩ jd).categories.soft_skills = 0
    ∧ (calcMatchScores tfidfCosine resume ⟨ts, ss, el, [], nh, ye⟩ jd).categories.must_have = 1
    ∧ (calcMatchScores tfidfCosine resume ⟨ts, ss, el, mh, [], ye⟩ jd).categories.nice_to_have = 0 := by
  refine ⟨?_, ?_, ?_, ?_⟩
  · show round3 (techScore resume ⟨[], ss, el, mh, nh, ye⟩) = 0
    have h : techScore resume ⟨[], ss, el, mh, nh, ye⟩ = 0 := by
      simp [techScore, lowerSet]
    rw [h, round3_zero]
  · show round3 (softScore resume ⟨ts, [], el, mh, nh, ye⟩) = 0
    have h : softScore resume ⟨ts, [], el, mh, nh, ye⟩ = 0 := by
      simp [softScore, lowerSet]
    rw [h, round3_zero]
  · show round3 (mustHaveScore resume ⟨ts, ss, el, [], nh, ye⟩) = 1
    have h : mustHaveScore resume ⟨ts, ss, el, [], nh, ye⟩ = 1 := by
      simp [mustHaveScore, lowerSet]
    rw [h, round3_one]
  · show round3 (niceToHaveScore resume ⟨ts, ss, el, mh, [], ye⟩) = 0
    have h : niceToHaveScore resume ⟨ts, ss, el, mh, [], ye⟩ = 0 := by
      simp [niceToHaveScore, lowerSet]
    rw [h, round3_zero]

/-- C3: the experience score is the stated piecewise function with the stated
precedence.  A resume with no recorded experience years (absent, and likewise
the recorded value 0, which Python truthiness treats as absent — see the
companion theorem for claim C10) scores 0.5; otherwise an explicit positive
job years requirement is compared first (1.0 / 0.8 / 0.6 / 0.3 tiers);
otherwise a job experience level is mapped to the inclusive band entry 0–2,
mid 3–5, senior 6–10, executive 10–∞ (1.0 inside the band, 0.8 at 80 percent
of the band minimum, else 0.4); otherwise 0.5. -/
theorem experience_piecewise (r j : Nat) (jy : Option Nat) (jl : Option ExpLevel) :
    calcExperienceMatch none jy jl = 0.5
    ∧ calcExperienceMatch (some (r+1)) (some (j+1)) jl =
        (if ((j:ℚ)+1) ≤ ((r:ℚ)+1) then 1
         else if ((j:ℚ)+1) * 0.8 ≤ ((r:ℚ)+1) then 0.8
         else if ((j:ℚ)+1) * 0.6 ≤ ((r:ℚ)+1) then 0.6
         else 0.3)
    ∧ levelBand ExpLevel.entry = (0, some 2)
    ∧ levelBand ExpLevel.mid = (3, some 5)
    ∧ levelBand ExpLevel.senior = (6, some 10)
    ∧ levelBand ExpLevel.executive = (10, none)
    ∧ calcExperienceMatch (some (r+1)) none (some ExpLevel.entry) =
        (if r+1 ≤ 2 then 1 else if ((0:ℚ)) * 0.8 ≤ ((r:ℚ)+1) then 0.8 else 0.4)
    ∧ calcExperienceMatch (some (r+1)) none (some ExpLevel.mid) =
        (if 3 ≤ r+1 ∧ r+1 ≤ 5 then 1 else if ((3:ℚ)) * 0.8 ≤ ((r:ℚ)+1) then 0.8 else 0.4)
    ∧ calcExperienceMatch (some (r+1)) none (some ExpLevel.senior) =
        (if 6 ≤ r+1 ∧ r+1 ≤ 10 then 1 else if ((6:ℚ)) * 0.8 ≤ ((r:ℚ)+1) then 0.8 else 0.4)
    ∧ calcExperienceMatch (some (r+1)) none (some ExpLevel.executive) =
        (if 10 ≤ r+1 then 1 else if ((10:ℚ)) * 0.8 ≤ ((r:ℚ)+1) then 0.8 else 0.4)
    ∧ calcExperienceMatch (some (r+1)) none none = 0.5 := by
  refine ⟨rfl, ?_, rfl, rfl, rfl, rfl, ?_, ?_, ?_, ?_, ?_⟩
  · simp only [calcExperienceMatch]
    rw [if_neg (by simp), if_pos (by simp)]
    simp only [Option.getD_some]
    push_cast
    rfl
  · simp only [calcExperienceMatch, levelScore, levelBand]
    rw [if_neg (by simp), if_neg (by simp)]
    simp only [Option.getD_some]
    push_cast
    simp
  · simp only [calcExperienceMatch, levelScore, levelBand]
    rw [if_neg (by simp), if_neg (by simp)]
    simp only [Option.getD_some]
    push_cast
    simp
  · simp only [calcExperienceMatch, levelScore, levelBand]
    rw [if_neg (by simp), if_neg (by simp)]
    simp only [Option.getD_some]
    push_cast
    simp
  · simp only [calcExperienceMatch, levelScore, levelBand]
    rw [if_neg (by simp), if_neg (by simp)]
    simp only [Option.getD_some]
    push_cast
    simp
  · simp only [calcExperienceMatch, levelScore]
    rw [if_neg (by simp), if_neg (by simp)]

/-- C4: the recommendation is a pure step function of the overall score with
inclusive lower bounds, characterised tier by tier, and in particular a score
of exactly 0.8 maps to the top tier while 0.7999 maps to the next lower
tier. -/
theorem recommendation_tiers (s : ℚ) :
    (getRecommendation s = "Highly recommended - Excellent match" ↔ 0.8 ≤ s)
    ∧ (getRecommendation s = "Recommended - Good match with minor gaps" ↔ 0.7 ≤ s ∧ s < 0.8)
    ∧ (getRecommendation s = "Consider applying - Moderate match, resume optimization recommended" ↔
        0.6 ≤ s ∧ s < 0.7)
    ∧ (getRecommendation s = "Marginal match - Significant resume optimization needed" ↔
        0.5 ≤ s ∧ s < 0.6)
    ∧ (getRecommendation s = "Not recommended - Poor match for current profile" ↔ s < 0.5)
    ∧ getRecommendation 0.8 = "Highly recommended - Excellent match"
    ∧ getRecommendation 0.7999 = "Recommended - Good match with minor gaps" := by
  have h08 : getRecommendation 0.8 = "Highly recommended - Excellent match" := by
    rw [getRecommendation, if_pos (by norm_num)]
  have h0799 : getRecommendation 0.7999 = "Recommended - Good match with minor gaps" := by
    rw [getRecommendation, if_neg (by norm_num), if_pos (by norm_num)]
  rcases le_or_lt (0.8 : ℚ) s with hA | hA
  · have hg : getRecommendation s = "Highly recommended - Excellent match" := by
      rw [getRecommendation, if_pos hA]
    rw [hg]
    exact ⟨iff_of_true rfl hA,
      iff_of_false (by decide) (fun h => absurd hA (not_le.mpr h.2)),
      iff_of_false (by decide) (fun h => absurd hA (not_le.mpr (by linarith [h.2]))),
      iff_of_false (by decide) (fun h => absurd hA (not_le.mpr (by linarith [h.2]))),
      iff_of_false (by decide) (fun h => absurd hA (not_le.mpr (by linarith))),
      h08, h0799⟩
  · rcases le_or_lt (0.7 : ℚ) s with hB | hB
    · have hg : getRecommendation s = "Recommended - Good match with minor gaps" := by
        rw [getRecommendation, if_neg (not_le.mpr hA), if_pos hB]
      rw [hg]
      exact ⟨iff_of_false (by decide) (not_le.mpr hA),
        iff_of_true rfl ⟨hB, hA⟩,
        iff_of_false (by decide) (fun h => absurd hB (not_le.mpr (by linarith [h.2]))),
        iff_of_false (by decide) (fun h => absurd hB (not_le.mpr (by linarith [h.2]))),
        iff_of_false (by decide) (fun h => absurd hB (not_le.mpr (by linarith))),
        h08, h0799⟩
    · rcases le_or_lt (0.6 : ℚ) s with hC | hC
      · have hg : getRecommendation s =
            "Consider applying - Moderate match, resume optimization recommended" := by
          rw [getRecommendation, if_neg (not_le.mpr hA), if_neg (not_le.mpr hB), if_pos hC]
        rw [hg]
        exact ⟨iff_of_false (by decide) (not_le.mpr hA),
          iff_of_false (by decide) (fun h => absurd h.1 (not_le.mpr hB)),
          iff_of_true rfl ⟨hC, hB⟩,
          iff_of_false (by decide) (fun h => absurd hC (not_le.mpr (by linarith [h.2]))),
          iff_of_false (by decide) (fun h => absurd hC (not_le.mpr (by linarith))),
          h08, h0799⟩
      · rcases le_or_lt (0.5 : ℚ) s with hD | hD
        · have hg : getRecommendation s =
              "Marginal match - Significant resume optimization needed" := by
            rw [getRecommendation, if_neg (not_le.mpr hA), if_neg (not_le.mpr hB),
              if_neg (not_le.mpr hC), if_pos hD]
          rw [hg]
          exact ⟨iff_of_false (by decide) (not_le.mpr hA),
            iff_of_false (by decide) (fun h => absurd h.1 (not_le.mpr hB)),
            iff_of_false (by decide) (fun h => absurd h.1 (not_le.mpr hC)),
            iff_of_true rfl ⟨hD, hC⟩,
            iff_of_false (by decide) (fun h => absurd hD (not_le.mpr (by linarith))),
            h08, h0799⟩
        · have hg : getRecommendation s =
              "Not recommended - Poor match for current profile" := by
            rw [getRecommendation, if_neg (not_le.mpr hA), if_neg (not_le.mpr hB),
              if_neg (not_le.mpr hC), if_neg (not_le.mpr hD)]
          rw [hg]
          exact ⟨iff_of_false (by decide) (not_le.mpr hA),
            iff_of_false (by decide) (fun h => absurd h.1 (not_le.mpr hB)),
            iff_of_false (by decide) (fun h => absurd h.1 (not_le.mpr hC)),
            iff_of_false (by decide) (fun h => absurd h.1 (not_le.mpr hD)),
            iff_of_true rfl hD,
            h08, h0799⟩

end JobMatcher

namespace JobMatcher

/-- C5: for every TF-IDF oracle whose successful answers lie in [0, 1] (the
mathematical range of a cosine similarity of non-negative TF-IDF vectors) and
for all inputs, every one of the six category scores and the overall score lie
in the closed interval [0, 1]. -/
theorem score_bounds (tfidfCosine : String → String → Except String ℚ)
    (resume : ResumeAnalysis) (reqs : JobRequirements) (jd : String)
    (ht : ∀ a b q, tfidfCosine a b = Except.ok q → 0 ≤ q ∧ q ≤ 1) :
    let ms := calcMatchScores tfidfCosine resume reqs jd
    (0 ≤ ms.categories.technical_skills ∧ ms.categories.technical_skills ≤ 1)
    ∧ (0 ≤ ms.categories.soft_skills ∧ ms.categories.soft_skills ≤ 1)
    ∧ (0 ≤ ms.categories.experience ∧ ms.categories.experience ≤ 1)
    ∧ (0 ≤ ms.categories.keywords ∧ ms.categories.keywords ≤ 1)
    ∧ (0 ≤ ms.categories.must_have ∧ ms.categories.must_have ≤ 1)
    ∧ (0 ≤ ms.categories.nice_to_have ∧ ms.categories.nice_to_have ≤ 1)
    ∧ (0 ≤ ms.overall ∧ ms.overall ≤ 1) := by
  obtain ⟨ht1, ht2⟩ := techScore_bounds resume reqs
  obtain ⟨hs1, hs2⟩ := softScore_bounds resume reqs
  obtain ⟨he1, he2⟩ :=
    experienceMatch_bounds resume.experience_years reqs.years_experience reqs.experience_level
  obtain ⟨hk1, hk2⟩ := keywordSim_bounds tfidfCosine ht resume.keywords jd
  obtain ⟨hm1, hm2⟩ := mustHaveScore_bounds resume reqs
  obtain ⟨hn1, hn2⟩ := niceToHaveScore_bounds resume reqs
  refine ⟨round3_bounds _ ht1 ht2, round3_bounds _ hs1 hs2, round3_bounds _ he1 he2,
    round3_bounds _ hk1 hk2, round3_bounds _ hm1 hm2, round3_bounds _ hn1 hn2,
    round3_bounds _ (by linarith) (by linarith)⟩

/-- Witness for C5: the bounds hold at a concrete input, with the concrete
always-failing oracle discharging the oracle hypothesis. -/
theorem score_bounds_witness :
    (∀ a b q, errOracle a b = Except.ok q → 0 ≤ q ∧ q ≤ 1) ∧
    (let ms := calcMatchScores errOracle wResume wReqs wJobText
     (0 ≤ ms.categories.technical_skills ∧ ms.categories.technical_skills ≤ 1)
     ∧ (0 ≤ ms.categories.soft_skills ∧ ms.categories.soft_skills ≤ 1)
     ∧ (0 ≤ ms.categories.experience ∧ ms.categories.experience ≤ 1)
     ∧ (0 ≤ ms.categories.keywords ∧ ms.categories.keywords ≤ 1)
     ∧ (0 ≤ ms.categories.must_have ∧ ms.categories.must_have ≤ 1)
     ∧ (0 ≤ ms.categories.nice_to_have ∧ ms.categories.nice_to_have ≤ 1)
     ∧ (0 ≤ ms.overall ∧ ms.overall ≤ 1)) :=
  ⟨fun _ _ _ h => Except.noConfusion h,
   score_bounds errOracle wResume wReqs wJobText (fun _ _ _ h => Except.noConfusion h)⟩

/-- C6 counterexample: on the worked scenario of the specification — resume
with technical skills python and aws and 5 years of experience, job text
asking for 3+ years of Python experience — the experience category score is
not 1.0 as claimed: no years pattern of the extractor matches the text (the
word python stands between of and experience), so the scorer falls through to
the neutral 0.5. -/
theorem scenario_counterexample :
    (calcMatchScores errOracle c6Resume (extractJobRequirements c6JobText)
      c6JobText).categories.experience ≠ 1 := by
  rw [c6_extraction]
  show round3 (calcExperienceMatch c6Resume.experience_years c6Reqs.years_experience
    c6Reqs.experience_level) ≠ 1
  have h : calcExperienceMatch c6Resume.experience_years c6Reqs.years_experience
      c6Reqs.experience_level = 1/2 := by
    simp [calcExperienceMatch, c6Resume, c6Reqs, levelScore]
    norm_num
  rw [h, round3_half]
  norm_num

/-- C6 amended: on the worked scenario the scorer produces technical score
0.667 (= round of 2/3) and must-have score 1.0 as stated in the claim, but
experience score 0.5, because the years-extraction regexes require the words
years (of) experience to be contiguous up to whitespace and therefore extract
no years requirement from this text. -/
theorem scenario_amended :
    (calcMatchScores errOracle c6Resume (extractJobRequirements c6JobText)
        c6JobText).categories.technical_skills = 667/1000
    ∧ (calcMatchScores errOracle c6Resume (extractJobRequirements c6JobText)
        c6JobText).categories.experience = 1/2
    ∧ (calcMatchScores errOracle c6Resume (extractJobRequirements c6JobText)
        c6JobText).categories.must_have = 1 := by
  rw [c6_extraction]
  refine ⟨?_, ?_, ?_⟩
  · show round3 (techScore c6Resume c6Reqs) = 667/1000
    have h : techScore c6Resume c6Reqs = 2/3 := by
      have hc : (lowerSet c6Resume.technical_skills ∩ lowerSet c6Reqs.technical_skills).card
          = 2 := by decide
      have hj : (lowerSet c6Reqs.technical_skills).card = 3 := by decide
      have hne : ¬ lowerSet c6Reqs.technical_skills = ∅ := by decide
      rw [techScore, if_neg hne, hc, hj]
      norm_num
    rw [h, round3_two_thirds]
  · show round3 (calcExperienceMatch c6Resume.experience_years c6Reqs.years_experience
      c6Reqs.experience_level) = 1/2
    have h : calcExperienceMatch c6Resume.experience_years c6Reqs.years_experience
        c6Reqs.experience_level = 1/2 := by
      simp [calcExperienceMatch, c6Resume, c6Reqs, levelScore]
      norm_num
    rw [h, round3_half]
  · show round3 (mustHaveScore c6Resume c6Reqs) = 1
    have h : mustHaveScore c6Resume c6Reqs = 1 := by
      have hc : ((lowerSet c6Resume.technical_skills ∪ lowerSet c6Resume.soft_skills) ∩
          lowerSet c6Reqs.must_have).card = 1 := by decide
      have hj : (lowerSet c6Reqs.must_have).card = 1 := by decide
      have hne : ¬ lowerSet c6Reqs.must_have = ∅ := by decide
      rw [mustHaveScore, if_neg hne, hc, hj]
      norm_num
    rw [h, round3_one]

/-- C7: the keyword-similarity computation is total (it is a function into ℚ);
it returns 0.0 when the resume keyword list is empty, and when the TF-IDF
oracle fails — the except branch of the source — the failure is converted into
a 0.0 similarity score rather than propagated. -/
theorem keyword_similarity_never_raises (tfidfCosine : String → String → Except String ℚ)
    (kws : List String) (jd : String) :
    (kws = [] → calcKeywordSimilarity tfidfCosine kws jd = 0)
    ∧ (∀ e, tfidfCosine (String.intercalate spaceStr kws) (cleanText jd) = Except.error e →
        calcKeywordSimilarity tfidfCosine kws jd = 0) := by
  constructor
  · intro h
    subst h
    rfl
  · intro e he
    by_cases hk : kws.isEmpty
    · simp [calcKeywordSimilarity, hk]
    · simp [calcKeywordSimilarity, hk, he]

/-- Witness for C7: the empty-keyword case and the failing-oracle case both
evaluate to 0 at concrete inputs. -/
theorem keyword_similarity_never_raises_witness :
    calcKeywordSimilarity errOracle [] wJobText = 0
    ∧ calcKeywordSimilarity errOracle wKeywords wJobText = 0 :=
  ⟨(keyword_similarity_never_raises errOracle [] wJobText).1 rfl,
   (keyword_similarity_never_raises errOracle wKeywords wJobText).2 errMsg rfl⟩

/-- C9: for every resume analysis and job text, the missing technical skills
are exactly the lowercased extracted job skills that the lowercased resume
skills do not contain (membership characterisation, duplicate-free by
construction as a `Finset`), and all met/missing fields are the literal
unrounded set intersections and differences per category. -/
theorem requirements_set_operations (tfidfCosine : String → String → Except String ℚ)
    (resume : ResumeAnalysis) (jobText : String) :
    let reqs := extractJobRequirements jobText
    let ms := calcMatchScores tfidfCosine resume reqs jobText
    (∀ s, s ∈ ms.requirements_missing.technical_skills ↔
      (s ∈ lowerSet reqs.technical_skills ∧ s ∉ lowerSet resume.technical_skills))
    ∧ ms.requirements_missing.technical_skills =
        lowerSet reqs.technical_skills \ lowerSet resume.technical_skills
    ∧ ms.requirements_met.technical_skills =
        lowerSet resume.technical_skills ∩ lowerSet reqs.technical_skills
    ∧ ms.requirements_met.soft_skills =
        lowerSet resume.soft_skills ∩ lowerSet reqs.soft_skills
    ∧ ms.requirements_missing.soft_skills =
        lowerSet reqs.soft_skills \ lowerSet resume.soft_skills
    ∧ ms.requirements_met.must_have =
        (lowerSet resume.technical_skills ∪ lowerSet resume.soft_skills) ∩ lowerSet reqs.must_have
    ∧ ms.requirements_missing.must_have =
        lowerSet reqs.must_have \ ms.requirements_met.must_have
    ∧ ms.requirements_met.nice_to_have =
        (lowerSet resume.technical_skills ∪ lowerSet resume.soft_skills) ∩ lowerSet reqs.nice_to_have
    ∧ ms.requirements_missing.nice_to_have =
        lowerSet reqs.nice_to_have \ ms.requirements_met.nice_to_have := by
  exact ⟨fun s => Finset.mem_sdiff, rfl, rfl, rfl, rfl, rfl, rfl, rfl, rfl⟩

/-- C10: a resume recording exactly 0 experience years gets the neutral 0.5
regardless of any job years or level requirement (zero is handled like an
absent value by Python truthiness), and a job whose extracted years
requirement is 0 is scored exactly as if no explicit years requirement were
present. -/
theorem zero_years_neutral (ry jy : Option Nat) (jl : Option ExpLevel) :
    calcExperienceMatch (some 0) jy jl = 0.5
    ∧ calcExperienceMatch ry (some 0) jl = calcExperienceMatch ry none jl := by
  constructor
  · rw [calcExperienceMatch, if_pos (Or.inr rfl)]
  · rcases ry with _ | r
    · rfl
    · by_cases hr : r = 0
      · subst hr
        rfl
      · rw [calcExperienceMatch, if_neg (by simp [hr]), if_neg (by simp),
            calcExperienceMatch, if_neg (by simp [hr]), if_neg (by simp)]

end JobMatcher
